import Mathlib

/-!
Verification development for the in-memory GIF-to-MP4 transcode pipeline
(`src/convert.rs` of iovxw/jandan_pic_bot).

The pipeline drives an external codec backend (rsmpeg/FFmpeg).  The backend's
decoder, encoder and muxer are embedded as abstract state machines (a state
type together with the operations the source calls on it); the Rust control
flow of `convert.rs` is translated function by function over those abstract
operations.  Loops that are not structurally recursive in the source are given
a fuel parameter; `none` means the fuel ran out, `some` is the value the Rust
code computes.
-/

namespace Convert

/-- A rational time base (`AVRational`): seconds per tick. -/
structure TimeBase where
  num : Int
  den : Int
deriving DecidableEq, Repr

/-- The fields of an `AVPacket` the pipeline reads or writes. -/
structure Packet where
  stream_index : Int
  pts : Int
  dts : Int
deriving DecidableEq, Repr

/-- The fields of an `AVFrame` the pipeline reads or writes. -/
structure Frame where
  width : Int
  height : Int
  format : Int
  pts : Int
deriving DecidableEq, Repr

/-- The `RsmpegError` variants distinguished by `convert.rs`.  `other c`
stands for every further variant of the library's error enum (the code only
ever matches the five named ones and treats the rest uniformly). -/
inductive RErr where
  | decoderDrain
  | decoderFlushed
  | encoderDrain
  | encoderFlushed
  | interleavedWrite (code : Int)
  | other (code : Int)
deriving DecidableEq, Repr

/-- `anyhow::Error` as used by `convert.rs`: either a propagated backend
error or a context message attached to a failed `Option`/check. -/
inductive Err where
  | rsmpeg (e : RErr)
  | msg (s : String)
deriving DecidableEq, Repr

/-- Equality of `Except` results is decidable when both component types
have decidable equality (used to evaluate the embedding on concrete
inputs). -/
instance exceptDecEq {α β : Type _} [DecidableEq α] [DecidableEq β] :
    DecidableEq (Except α β) := fun x y =>
  match x, y with
  | Except.ok a, Except.ok b =>
    if h : a = b then isTrue (by rw [h])
    else isFalse (by intro hc; cases hc; exact h rfl)
  | Except.ok _, Except.error _ => isFalse (by intro hc; cases hc)
  | Except.error _, Except.ok _ => isFalse (by intro hc; cases hc)
  | Except.error a, Except.error b =>
    if h : a = b then isTrue (by rw [h])
    else isFalse (by intro hc; cases hc; exact h rfl)

/-- Abstract decoder (`AVCodecContext` opened for decoding): the two
operations `AVFrameIter::next_frame` calls on it.  `δ` is the backend's
hidden decoder state. -/
structure DecoderOps (δ : Type) where
  send_packet : δ → Option Packet → Except RErr Unit × δ
  receive_frame : δ → Except RErr Frame × δ

/-- Embedding of the `AVFrameIter` struct.  The demuxer
(`AVFormatContextInput::read_packet`) is embedded as the list of results the
successive `read_packet` calls produce; once the list is exhausted the
demuxer keeps reporting end of stream (`Ok(None)`), as a real demuxer does.
`time_base`/`framerate` mirror the fields `decode_video` copied onto the
decode context from the selected stream. -/
structure AVFrameIter (δ : Type) where
  frame_buffer : Option Frame
  demux : List (Except RErr (Option Packet))
  dec : δ
  stream_index : Nat
  time_base : TimeBase
  framerate : TimeBase
deriving DecidableEq

/-- The inner `loop` of `next_frame` (convert.rs lines 26–31): pull demuxed
packets, discarding every packet whose `stream_index` differs from the
selected stream, until a matching packet, end of stream (`None`), or a
demuxer error.  Returns the `read_packet` result that broke the loop and the
remaining demuxer suffix. -/
def pull_packet (si : Nat) :
    List (Except RErr (Option Packet)) →
    Except RErr (Option Packet) × List (Except RErr (Option Packet))
  | [] => (Except.ok none, [])
  | Except.error e :: rest => (Except.error e, rest)
  | Except.ok none :: rest => (Except.ok none, rest)
  | Except.ok (some p) :: rest =>
    if p.stream_index = (si : Int) then (Except.ok (some p), rest)
    else pull_packet si rest

/-- Embedding of `AVFrameIter::next_frame` (convert.rs lines 24–49).
One `fuel` unit is one iteration of the outer `loop`; `none` = fuel ran out.
The returned iterator is the state of `self` when the function returns. -/
def next_frame (ops : DecoderOps δ) :
    Nat → AVFrameIter δ → Option (Except RErr (Option Frame) × AVFrameIter δ)
  | 0, _ => none
  | fuel + 1, it =>
    match pull_packet it.stream_index it.demux with
    | (Except.error e, dm) => some (Except.error e, { it with demux := dm })
    | (Except.ok pkt, dm) =>
      let go : δ → Option (Except RErr (Option Frame) × AVFrameIter δ) := fun d1 =>
        match ops.receive_frame d1 with
        | (Except.ok f, d2) =>
          some (Except.ok (some f),
            { it with demux := dm, dec := d2, frame_buffer := some f })
        | (Except.error RErr.decoderDrain, d2) =>
          next_frame ops fuel { it with demux := dm, dec := d2 }
        | (Except.error RErr.decoderFlushed, d2) =>
          some (Except.ok none, { it with demux := dm, dec := d2 })
        | (Except.error e, d2) =>
          some (Except.error e, { it with demux := dm, dec := d2 })
      match ops.send_packet it.dec pkt with
      | (Except.ok _, d1) => go d1
      | (Except.error RErr.decoderFlushed, d1) => go d1
      | (Except.error e, d1) =>
        some (Except.error e, { it with demux := dm, dec := d1 })

/-! ## The custom IO callbacks (`input_format_context` / `output_format_context`) -/

/-- `ffi::AVSEEK_SIZE` (= 0x10000). -/
def AVSEEK_SIZE : Int := 65536

/-- `ffi::AVERROR_EOF` (= -MKTAG('E','O','F',' ')). -/
def AVERROR_EOF : Int := -541478725

/-- The input adapter's read callback (convert.rs lines 84–92).  `data` is
the captured source byte buffer, `cur` the shared cursor, `buf_len` the size
of the buffer the backend hands in.  Returns the value reported to the
backend and the cursor after the call (`(&data[cur..]).read(buf)` copies
`min (data.len - cur) buf.len` bytes and the callback advances the cursor by
that amount). -/
def input_read (data : List Nat) (cur : Nat) (buf_len : Nat) : Int × Nat :=
  if data.length ≤ cur then (AVERROR_EOF, cur)
  else
    let ret := min (data.length - cur) buf_len
    ((ret : Int), cur + ret)

/-- The input adapter's seek callback (convert.rs lines 94–109).  Returns the
value reported to the backend and the cursor after the call (`new as usize`
is stored only when `new >= 0`). -/
def input_seek (data : List Nat) (cur : Nat) (offset : Int) (whence : Int) :
    Int × Nat :=
  if whence = AVSEEK_SIZE then ((data.length : Int), cur)
  else
    let new : Int :=
      if whence = 0 then offset
      else if whence = 1 then (cur : Int) + offset
      else if whence = 2 then (data.length : Int) + offset
      else -1
    if 0 ≤ new then (new, new.toNat) else (new, cur)

/-- `std::io::Cursor<Vec<u8>>`: position plus backing buffer (bytes as
`Nat`). -/
structure Cursor where
  pos : Nat
  data : List Nat
deriving DecidableEq, Repr

/-- `std::io::SeekFrom`. -/
inductive SeekFrom where
  | start (n : Nat)
  | current (d : Int)
  | fromEnd (d : Int)
deriving DecidableEq, Repr

/-- `<Cursor<Vec<u8>> as Seek>::seek`: `Start` always sets the position (a
`u64`, which may lie beyond the buffer); `Current`/`End` fail (position
unchanged) when the resolved target is negative.  `none` is the `Err` case. -/
def cursor_seek (c : Cursor) : SeekFrom → Option (Nat × Cursor)
  | SeekFrom.start n => some (n, { c with pos := n })
  | SeekFrom.current d =>
    let t : Int := (c.pos : Int) + d
    if 0 ≤ t then some (t.toNat, { c with pos := t.toNat }) else none
  | SeekFrom.fromEnd d =>
    let t : Int := (c.data.length : Int) + d
    if 0 ≤ t then some (t.toNat, { c with pos := t.toNat }) else none

/-- The `offset as u64` cast in `SeekFrom::Start(offset as _)`. -/
def u64_of_i64 (x : Int) : Nat := (x % ((2 : Int) ^ 64)).toNat

/-- The `x as i64` cast applied to the new position in `.map(|x| x as _)`. -/
def i64_of_u64 (n : Nat) : Int :=
  if n < 2 ^ 63 then (n : Int) else (n : Int) - 2 ^ 64

/-- The output adapter's seek callback (convert.rs lines 136–149; the
poisoned-mutex branch cannot fire in this single-threaded pipeline and is not
modelled).  Returns the value reported to the backend and the cursor after
the call. -/
def output_seek (c : Cursor) (offset : Int) (whence : Int) : Int × Cursor :=
  let r : Option (Nat × Cursor) :=
    if whence = 0 then cursor_seek c (SeekFrom.start (u64_of_i64 offset))
    else if whence = 1 then cursor_seek c (SeekFrom.current offset)
    else if whence = 2 then cursor_seek c (SeekFrom.fromEnd offset)
    else none
  match r with
  | some (n, c1) => (i64_of_u64 n, c1)
  | none => (-1, c)

/-! ## Output-buffer extraction (`encode_mp4`, convert.rs lines 248–253) -/

/-- An `Arc` cell: strong reference count plus the shared value. -/
structure ArcCell (α : Type) where
  strong : Nat
  value : α
deriving DecidableEq, Repr

/-- `Arc::into_inner`: yields the value only when the caller holds the unique
strong reference. -/
def arc_into_inner (a : ArcCell α) : Option α :=
  if a.strong = 1 then some a.value else none

/-- The final buffer extraction of `encode_mp4`:
`Arc::into_inner(buffer).context("Failed to get buffer")?.into_inner()?.into_inner()`.
The `Mutex::into_inner` step cannot fail in this single-threaded pipeline
(no poisoning); `Cursor::into_inner` yields the backing bytes. -/
def extract_buffer (a : ArcCell Cursor) : Except Err (List Nat) :=
  match arc_into_inner a with
  | none => Except.error (Err.msg "Failed to get buffer")
  | some c => Except.ok c.data

/-! ## The encode side (`encode_mp4` / `encode_write_frame`) -/

/-- Abstract encoder (`AVCodecContext` opened for encoding): the operations
`encode_write_frame` calls on it.  `ε` is the backend's hidden encoder
state. -/
structure EncoderOps (ε : Type) where
  send_frame : ε → Option Frame → Except RErr Unit × ε
  receive_packet : ε → Except RErr Packet × ε

/-- Abstract muxer (`AVFormatContextOutput`): the operations `encode_mp4`
calls on it.  `μ` is the backend's hidden muxer state. -/
structure MuxOps (μ : Type) where
  write_header : μ → Except RErr Unit × μ
  interleaved_write_frame : μ → Packet → Except RErr Unit × μ
  write_trailer : μ → Except RErr Unit × μ

/-- The backend capabilities `encode_mp4`'s frame loop uses:
encoder, muxer, `av_packet_rescale_ts` and `sws_scale_frame`
(`scale_frame(src, 0, height, &mut dst)` populates the scratch frame `dst`
from `src`; the result is the scratch frame's new contents). -/
structure EncodeEnv (ε μ : Type) where
  enc : EncoderOps ε
  mux : MuxOps μ
  rescale_ts : Packet → TimeBase → TimeBase → Packet
  sws_scale_frame : Frame → Frame → Except RErr Frame

/-- `ffi::AVPixelFormat_AV_PIX_FMT_YUV420P` (= 0), the planar YUV 4:2:0
layout. -/
def AV_PIX_FMT_YUV420P : Int := 0

/-- `ffi::AVCodecID_AV_CODEC_ID_H264` (= 27). -/
def AV_CODEC_ID_H264 : Int := 27

/-- `ffi::AV_CODEC_FLAG_GLOBAL_HEADER` (= 1 << 22).  Flag words are
non-negative bitmasks and are modelled as `Nat`. -/
def AV_CODEC_FLAG_GLOBAL_HEADER : Nat := 4194304

/-- `ffi::AVFMT_GLOBALHEADER` (= 0x0040). -/
def AVFMT_GLOBALHEADER : Nat := 64

/-- An `AVCodec` descriptor as returned by `find_encoder_by_name`; the code
only reads its `id`. -/
structure AVCodec where
  id : Int
deriving DecidableEq, Repr

/-- The encoder configuration `encode_mp4` builds before `open` (the fields
of the encode `AVCodecContext` the code sets, plus the `preset` private
option). -/
structure EncCfg where
  bit_rate : Int
  width : Int
  height : Int
  time_base : TimeBase
  framerate : TimeBase
  gop_size : Int
  max_b_frames : Int
  pix_fmt : Int
  flags : Nat
  preset : Option String
deriving DecidableEq, Repr

/-- Embedding of the encoder configuration sequence of `encode_mp4`
(convert.rs lines 170–195), everything between `AVCodecContext::new(&encoder)`
and `encode_context.open`: the six `set_…` calls with their constants, the
`preset`/`slow` private option applied when the resolved encoder's id is
H.264 (`opt_set_preset_ok` is whether the backend's `av_opt_set` accepts it;
on rejection the code bails with "Failed to set preset"), and the global
header flag set when the output container's format flags require it. -/
def build_encode_context (encoder : AVCodec) (width height : Int)
    (time_base framerate : TimeBase) (opt_set_preset_ok : Bool)
    (oformat_flags : Nat) : Except Err EncCfg :=
  let c : EncCfg :=
    { bit_rate := 1000000
      width := width
      height := height
      time_base := time_base
      framerate := framerate
      gop_size := 10
      max_b_frames := 1
      pix_fmt := AV_PIX_FMT_YUV420P
      flags := 0
      preset := none }
  match
    (if encoder.id = AV_CODEC_ID_H264 then
      (if opt_set_preset_ok then Except.ok { c with preset := some "slow" }
       else Except.error (Err.msg "Failed to set preset"))
     else Except.ok c : Except Err EncCfg) with
  | Except.error e => Except.error e
  | Except.ok c1 =>
    Except.ok
      (if oformat_flags &&& AVFMT_GLOBALHEADER ≠ 0 then
        { c1 with flags := c1.flags ||| AV_CODEC_FLAG_GLOBAL_HEADER }
       else c1)

/-- The observable pipeline events the temporal claims are about, in call
order. -/
inductive Event where
  | open_encoder (cfg : EncCfg)
  | new_stream (cfg : EncCfg)
  | write_header
  | send_frame (f : Option Frame)
  | write_trailer
deriving DecidableEq, Repr

/-- The mutable state threaded through the encode half of `encode_mp4`:
encoder and muxer backend states, the output context's stream list (each
stream reduced to its time base, the only field the code reads back), and
the event log. -/
structure MuxWorld (ε μ : Type) where
  enc : ε
  mux : μ
  streams : List TimeBase
  events : List Event
deriving DecidableEq

/-- The packet-drain `loop` of `encode_write_frame` (convert.rs lines
264–286): receive packets until the encoder signals drain/flushed, retarget
each to the output stream, rescale its timestamps, and write it through the
interleaving writer, swallowing exactly
`RsmpegError::InterleavedWriteFrameError(-22)`.  One `fuel` unit is one loop
iteration; `none` = fuel ran out. -/
def encode_write_frame_loop (env : EncodeEnv ε μ) (enc_tb : TimeBase)
    (osi : Nat) : Nat → MuxWorld ε μ → Option (Except Err Unit × MuxWorld ε μ)
  | 0, _ => none
  | fuel + 1, w =>
    match env.enc.receive_packet w.enc with
    | (Except.error RErr.encoderDrain, e1) =>
      some (Except.ok (), { w with enc := e1 })
    | (Except.error RErr.encoderFlushed, e1) =>
      some (Except.ok (), { w with enc := e1 })
    | (Except.error e, e1) =>
      some (Except.error (Err.rsmpeg e), { w with enc := e1 })
    | (Except.ok packet, e1) =>
      let packet1 := { packet with stream_index := (osi : Int) }
      match w.streams.get? osi with
      | none =>
        some (Except.error (Err.msg "Failed to get stream"), { w with enc := e1 })
      | some out_tb =>
        let packet2 := env.rescale_ts packet1 enc_tb out_tb
        match env.mux.interleaved_write_frame w.mux packet2 with
        | (Except.ok _, m1) =>
          encode_write_frame_loop env enc_tb osi fuel { w with enc := e1, mux := m1 }
        | (Except.error (RErr.interleavedWrite c), m1) =>
          if c = -22 then
            encode_write_frame_loop env enc_tb osi fuel { w with enc := e1, mux := m1 }
          else
            some (Except.error (Err.rsmpeg (RErr.interleavedWrite c)),
              { w with enc := e1, mux := m1 })
        | (Except.error e, m1) =>
          some (Except.error (Err.rsmpeg e), { w with enc := e1, mux := m1 })

/-- Embedding of `encode_write_frame` (convert.rs lines 256–289):
`send_frame` (every error propagates), then the packet-drain loop. -/
def encode_write_frame (env : EncodeEnv ε μ) (enc_tb : TimeBase) (osi : Nat)
    (frame_after : Option Frame) (fuel : Nat) (w : MuxWorld ε μ) :
    Option (Except Err Unit × MuxWorld ε μ) :=
  match env.enc.send_frame w.enc frame_after with
  | (Except.error e, e1) =>
    some (Except.error (Err.rsmpeg e),
      { w with enc := e1, events := w.events ++ [Event.send_frame frame_after] })
  | (Except.ok _, e1) =>
    encode_write_frame_loop env enc_tb osi fuel
      { w with enc := e1, events := w.events ++ [Event.send_frame frame_after] }

/-- Embedding of the `encode_frame` closure (convert.rs lines 221–236):
pass the frame through unchanged when its pixel format already matches the
scratch frame's, otherwise scale into the scratch frame and copy the source
PTS onto it; then `encode_write_frame`.  Returns the scratch frame after the
call alongside the result. -/
def encode_frame (env : EncodeEnv ε μ) (enc_tb : TimeBase) (osi : Nat)
    (fuel : Nat) (src_frame dst : Frame) (w : MuxWorld ε μ) :
    Option (Except Err Unit × Frame × MuxWorld ε μ) :=
  if src_frame.format = dst.format then
    match encode_write_frame env enc_tb osi (some src_frame) fuel w with
    | none => none
    | some (r, w1) => some (r, dst, w1)
  else
    match env.sws_scale_frame src_frame dst with
    | Except.error e => some (Except.error (Err.rsmpeg e), dst, w)
    | Except.ok d0 =>
      let d1 := { d0 with pts := src_frame.pts }
      match encode_write_frame env enc_tb osi (some d1) fuel w with
      | none => none
      | some (r, w1) => some (r, d1, w1)

/-- The `while let Some(src_frame) = src.next_frame()?` loop of `encode_mp4`
(convert.rs lines 238–240).  One `fuel` unit is one loop iteration. -/
def frame_loop (dops : DecoderOps δ) (env : EncodeEnv ε μ) (enc_tb : TimeBase)
    (osi : Nat) :
    Nat → AVFrameIter δ → Frame → MuxWorld ε μ →
    Option (Except Err Unit × AVFrameIter δ × Frame × MuxWorld ε μ)
  | 0, _, _, _ => none
  | fuel + 1, it, dst, w =>
    match next_frame dops (fuel + 1) it with
    | none => none
    | some (Except.error e, it1) => some (Except.error (Err.rsmpeg e), it1, dst, w)
    | some (Except.ok none, it1) => some (Except.ok (), it1, dst, w)
    | some (Except.ok (some f), it1) =>
      match encode_frame env enc_tb osi (fuel + 1) f dst w with
      | none => none
      | some (Except.error e, dst1, w1) => some (Except.error e, it1, dst1, w1)
      | some (Except.ok _, dst1, w1) =>
        frame_loop dops env enc_tb osi fuel it1 dst1 w1

/-- The environment facts `encode_mp4`'s initialization consults, i.e. the
backend behaviour outside the four ops structures: the result of
`AVCodec::find_encoder_by_name(c"libx264")`, whether `av_opt_set` accepts the
preset, the output container's format flags (`oformat().flags`), the result
of `encode_context.open` on a given configuration, the result of
`dst_frame.alloc_buffer()`, the time base the muxer assigns to the new output
stream, whether `SwsContext::get_context` succeeds, the fresh muxer state
`output_format_context()` returns, how many of the output adapter's two
buffer clones the muxer teardown releases before extraction (2 when the
muxer drops normally), and the shared cursor's contents at extraction time. -/
structure InitEnv (ε μ : Type) where
  find_libx264 : Option AVCodec
  opt_set_preset_ok : Bool
  oformat_flags : Nat
  enc_open : EncCfg → Except RErr ε
  alloc_buffer : Except RErr Unit
  new_stream_time_base : TimeBase
  sws_ok : Bool
  mux0 : μ
  adapter_released : Nat
  out_cursor : Cursor

/-- The tail of `encode_mp4` (convert.rs lines 211–253), entered once the
container header has been written: build the scaler, encode the first frame
then every further frame, flush the encoder, write the trailer, and extract
the shared output buffer.  `cfg` is the opened encoder's configuration,
`src1` the iterator after the first frame was pulled, `dst` the freshly
allocated scratch frame and `w1` the world whose log already records
opening the encoder, attaching the stream and writing the header. -/
def encode_mp4_body (dops : DecoderOps δ) (env : EncodeEnv ε μ)
    (ienv : InitEnv ε μ) (fuel : Nat) (cfg : EncCfg) (src1 : AVFrameIter δ)
    (first_frame : Frame) (dst : Frame) (w1 : MuxWorld ε μ) :
    Option (Except Err (List Nat) × List Event) :=
  if ienv.sws_ok = false then
    some (Except.error (Err.msg "Failed to get sws_context"), w1.events)
  else
    match encode_frame env cfg.time_base 0 fuel first_frame dst w1 with
    | none => none
    | some (Except.error e, _, w2) => some (Except.error e, w2.events)
    | some (Except.ok _, dst1, w2) =>
      match frame_loop dops env cfg.time_base 0 fuel src1 dst1 w2 with
      | none => none
      | some (Except.error e, _, _, w3) => some (Except.error e, w3.events)
      | some (Except.ok _, _, _, w3) =>
        match encode_write_frame env cfg.time_base 0 none fuel w3 with
        | none => none
        | some (Except.error e, w4) => some (Except.error e, w4.events)
        | some (Except.ok _, w4) =>
          match env.mux.write_trailer w4.mux with
          | (Except.error e, _) =>
            some (Except.error (Err.rsmpeg e),
              w4.events ++ [Event.write_trailer])
          | (Except.ok _, _) =>
            match extract_buffer
                { strong := 3 - ienv.adapter_released
                  value := ienv.out_cursor } with
            | Except.error e =>
              some (Except.error e, w4.events ++ [Event.write_trailer])
            | Except.ok bytes =>
              some (Except.ok bytes, w4.events ++ [Event.write_trailer])

/-- Embedding of `encode_mp4` (convert.rs lines 158–254): fetch the first
frame, create the output context, resolve and configure the encoder, open
it, allocate the scratch frame, attach the output stream (carrying the
encoder's codec parameters), write the container header, then run
`encode_mp4_body`.  `some` pairs the Rust function's `Result` with the
event log of the run. -/
def encode_mp4 (dops : DecoderOps δ) (env : EncodeEnv ε μ)
    (ienv : InitEnv ε μ) (fuel : Nat) (src : AVFrameIter δ) :
    Option (Except Err (List Nat) × List Event) :=
  match next_frame dops fuel src with
  | none => none
  | some (Except.error e, _) => some (Except.error (Err.rsmpeg e), [])
  | some (Except.ok none, _) =>
    some (Except.error (Err.msg "Failed to get first frame"), [])
  | some (Except.ok (some first_frame), src1) =>
    match ienv.find_libx264 with
    | none => some (Except.error (Err.msg "Failed to find encoder codec"), [])
    | some encoder =>
      match build_encode_context encoder first_frame.width first_frame.height
          src.time_base src.framerate ienv.opt_set_preset_ok
          ienv.oformat_flags with
      | Except.error e => some (Except.error e, [])
      | Except.ok cfg =>
        match ienv.enc_open cfg with
        | Except.error e => some (Except.error (Err.rsmpeg e), [])
        | Except.ok enc0 =>
          match ienv.alloc_buffer with
          | Except.error e =>
            some (Except.error (Err.rsmpeg e), [Event.open_encoder cfg])
          | Except.ok _ =>
            match env.mux.write_header ienv.mux0 with
            | (Except.error e, _) =>
              some (Except.error (Err.rsmpeg e),
                [Event.open_encoder cfg, Event.new_stream cfg,
                  Event.write_header])
            | (Except.ok _, m1) =>
              encode_mp4_body dops env ienv fuel cfg src1 first_frame
                { width := cfg.width, height := cfg.height
                  format := cfg.pix_fmt, pts := 0 }
                { enc := enc0, mux := m1
                  streams := [ienv.new_stream_time_base]
                  events := [Event.open_encoder cfg, Event.new_stream cfg,
                    Event.write_header] }

/-! ## Concrete scripted backends for evaluating the embedding on inputs -/

/-- A scripted decoder state: the results the next `send_packet` /
`receive_frame` calls return.  An exhausted send script answers `Ok`; an
exhausted receive script answers `DecoderFlushedError` (the drained
decoder's stable answer). -/
abbrev ScriptDec := List (Except RErr Unit) × List (Except RErr Frame)

/-- Decoder ops over a `ScriptDec` state. -/
def scriptDecOps : DecoderOps ScriptDec where
  send_packet := fun d _ =>
    match d.1 with
    | [] => (Except.ok (), d)
    | r :: rest => (r, (rest, d.2))
  receive_frame := fun d =>
    match d.2 with
    | [] => (Except.error RErr.decoderFlushed, d)
    | r :: rest => (r, (d.1, rest))

/-- A scripted encoder state: the results the next `send_frame` /
`receive_packet` calls return.  An exhausted send script answers `Ok`; an
exhausted receive script answers `EncoderDrainError`. -/
abbrev ScriptEnc := List (Except RErr Unit) × List (Except RErr Packet)

/-- Encoder ops over a `ScriptEnc` state. -/
def scriptEncOps : EncoderOps ScriptEnc where
  send_frame := fun e _ =>
    match e.1 with
    | [] => (Except.ok (), e)
    | r :: rest => (r, (rest, e.2))
  receive_packet := fun e =>
    match e.2 with
    | [] => (Except.error RErr.encoderDrain, e)
    | r :: rest => (r, (e.1, rest))

/-- A scripted muxer state: the results the next `interleaved_write_frame`
calls return (exhausted script answers `Ok`); header and trailer writes
succeed. -/
abbrev ScriptMux := List (Except RErr Unit)

/-- Mux ops over a `ScriptMux` state. -/
def scriptMuxOps : MuxOps ScriptMux where
  write_header := fun m => (Except.ok (), m)
  interleaved_write_frame := fun m _ =>
    match m with
    | [] => (Except.ok (), m)
    | r :: rest => (r, rest)
  write_trailer := fun m => (Except.ok (), m)

/-- The scripted backend bundle: timestamp rescaling and frame scaling are
modelled as identities for concrete runs. -/
def scriptEnv : EncodeEnv ScriptEnc ScriptMux where
  enc := scriptEncOps
  mux := scriptMuxOps
  rescale_ts := fun p _ _ => p
  sws_scale_frame := fun _ d => Except.ok d

/-- An initialization environment in which every backend step succeeds and
the muxer teardown releases both adapter references. -/
def baseInitEnv : InitEnv ScriptEnc ScriptMux where
  find_libx264 := some { id := AV_CODEC_ID_H264 }
  opt_set_preset_ok := true
  oformat_flags := AVFMT_GLOBALHEADER
  enc_open := fun _ => Except.ok ([], [])
  alloc_buffer := Except.ok ()
  new_stream_time_base := { num := 1, den := 1000 }
  sws_ok := true
  mux0 := []
  adapter_released := 2
  out_cursor := { pos := 0, data := [] }

/-- A sample decoded frame. -/
def sampleFrame : Frame := { width := 100, height := 80, format := 0, pts := 0 }

/-- A one-frame scripted iterator: the demuxer is already exhausted and the
decoder still holds one buffered frame, then reports fully flushed. -/
def sampleIter : AVFrameIter ScriptDec :=
  { frame_buffer := none
    demux := []
    dec := ([], [Except.ok sampleFrame])
    stream_index := 0
    time_base := { num := 1, den := 100 }
    framerate := { num := 10, den := 1 } }

/-- The FFmpeg drain protocol's terminal decoder behaviour, as an invariant
set of decoder states `S`: once the decoder has reported fully flushed,
`send_packet` (of a flush signal or of any further packet) answers
`DecoderFlushedError` and `receive_frame` answers `DecoderFlushedError`,
and the decoder stays in such a state. -/
def DecoderFlushedInv (ops : DecoderOps δ) (S : δ → Prop) : Prop :=
  ∀ d, S d →
    (∀ pkt, (ops.send_packet d pkt).1 = Except.error RErr.decoderFlushed ∧
       S (ops.send_packet d pkt).2) ∧
    (ops.receive_frame d).1 = Except.error RErr.decoderFlushed ∧
    S (ops.receive_frame d).2

/-- A concrete fully-flushed decoder: both operations always answer
`DecoderFlushedError`. -/
def flushedDecOps : DecoderOps Unit where
  send_packet := fun d _ => (Except.error RErr.decoderFlushed, d)
  receive_frame := fun d => (Except.error RErr.decoderFlushed, d)

/-- A concrete iterator over the flushed decoder whose demuxer still holds
one stray (matching) packet. -/
def flushedIter : AVFrameIter Unit :=
  { frame_buffer := none
    demux := [Except.ok (some { stream_index := 0, pts := 0, dts := 0 })]
    dec := ()
    stream_index := 0
    time_base := { num := 1, den := 100 }
    framerate := { num := 10, den := 1 } }

/-- A scripted iterator around a given decoder state, over an exhausted
demuxer. -/
def scriptIter (d : ScriptDec) : AVFrameIter ScriptDec :=
  { frame_buffer := none
    demux := []
    dec := d
    stream_index := 0
    time_base := { num := 1, den := 100 }
    framerate := { num := 10, den := 1 } }

/-- Whether an event is an encoder-open event. -/
def isOpenEnc : Event → Bool
  | Event.open_encoder _ => true
  | _ => false

/-- The number of occurrences of an event in an event log. -/
def countEvent (ev : Event) (l : List Event) : Nat :=
  (l.filter (fun e => decide (e = ev))).length

/-- The encoder configuration `encode_mp4` builds for `sampleFrame` over
`baseInitEnv` (width/height 100×80 from the first frame, the source
time base and frame rate, the fixed constants, the applied preset and the
global-header flag). -/
def sampleCfg : EncCfg :=
  { bit_rate := 1000000
    width := 100
    height := 80
    time_base := { num := 1, den := 100 }
    framerate := { num := 10, den := 1 }
    gop_size := 10
    max_b_frames := 1
    pix_fmt := 0
    flags := 4194304
    preset := some "slow" }

/-- The event log of the successful sample conversion. -/
def sampleEvents : List Event :=
  [Event.open_encoder sampleCfg, Event.new_stream sampleCfg,
   Event.write_header, Event.send_frame (some sampleFrame),
   Event.send_frame none, Event.write_trailer]

/-- The iterator state after `sampleIter`'s first frame has been pulled. -/
def sampleIter1 : AVFrameIter ScriptDec :=
  { frame_buffer := some sampleFrame
    demux := []
    dec := ([], [])
    stream_index := 0
    time_base := { num := 1, den := 100 }
    framerate := { num := 10, den := 1 } }

/-! ## Claims about the IO adapters and buffer extraction -/

/-- Claim C8: for the input adapter over an in-memory byte buffer, a
`QuerySize` (`AVSEEK_SIZE`) seek request returns the total buffer length
without moving the cursor, and a read issued when the cursor is at or past
the end of the buffer returns the `AVERROR_EOF` sentinel, not an error
(and leaves the cursor where it is). -/
theorem c8_query_size_and_eof :
    (∀ (data : List Nat) (cur : Nat) (offset : Int),
       input_seek data cur offset AVSEEK_SIZE = ((data.length : Int), cur)) ∧
    (∀ (data : List Nat) (cur buf_len : Nat), data.length ≤ cur →
       input_read data cur buf_len = (AVERROR_EOF, cur)) := by
  constructor
  · intro data cur offset
    simp [input_seek]
  · intro data cur buf_len h
    simp [input_read, h]

/-- Witness for C8 at a concrete buffer: `QuerySize` over `[3, 4, 5]`
reports 3 without moving the cursor, and a read at cursor 3 (the end)
reports `AVERROR_EOF`. -/
theorem c8_query_size_and_eof_witness :
    input_seek [3, 4, 5] 1 7 AVSEEK_SIZE = (3, 1) ∧
    input_read [3, 4, 5] 3 16 = (AVERROR_EOF, 3) :=
  ⟨c8_query_size_and_eof.1 [3, 4, 5] 1 7,
   c8_query_size_and_eof.2 [3, 4, 5] 3 16 (by decide)⟩

/-- Counterexample to claim C3 as stated: on the input adapter a `FromStart`
seek to offset 15 over a 10-byte buffer resolves, stores and reports the
target 15, which lies outside `[0, len]` = `[0, 10]`; and on the output
adapter a `FromStart` seek with offset -9 reports the negative value -9 to
the backend yet does move the cursor (to 2^64 - 9, the wrapped `u64` cast of
the offset), so a negative-resolving seek does not always leave the cursor
position unchanged. -/
theorem c3_counterexample :
    (input_seek (List.replicate 10 0) 0 15 0 = (15, 15) ∧ 10 < 15) ∧
    ((output_seek { pos := 4, data := [1, 2, 3] } (-9) 0).1 < 0 ∧
     (output_seek { pos := 4, data := [1, 2, 3] } (-9) 0).2.pos ≠ 4) := by
  decide

/-- Claim C3 as amended: the seek callbacks never enforce the upper bound
`len`, only the lower bound 0, and failure is signalled by a negative value
without panicking.  Precisely: (a) an input seek that resolves negatively
reports that negative value and leaves the cursor unchanged; (b) an input
seek (other than `QuerySize`) that resolves non-negatively stores exactly
the resolved target, which may exceed the buffer length; (c) an output seek
with an unknown `whence` reports -1 and leaves the cursor unchanged; (d/e)
an output `FromCurrent`/`FromEnd` seek whose resolved target is negative
reports -1 and leaves the cursor unchanged.  (An output `FromStart` seek
always succeeds at the wrapped `u64` offset, so its report may be negative
while the cursor moves — the counterexample above.) -/
theorem c3_amended_seek_contract :
    (∀ (data : List Nat) (cur : Nat) (offset whence : Int),
       (input_seek data cur offset whence).1 < 0 →
       (input_seek data cur offset whence).2 = cur) ∧
    (∀ (data : List Nat) (cur : Nat) (offset whence : Int),
       whence ≠ AVSEEK_SIZE → 0 ≤ (input_seek data cur offset whence).1 →
       ((input_seek data cur offset whence).2 : Int) =
         (input_seek data cur offset whence).1) ∧
    (∀ (c : Cursor) (offset whence : Int),
       ¬(whence = 0 ∨ whence = 1 ∨ whence = 2) →
       output_seek c offset whence = (-1, c)) ∧
    (∀ (c : Cursor) (offset : Int), (c.pos : Int) + offset < 0 →
       output_seek c offset 1 = (-1, c)) ∧
    (∀ (c : Cursor) (offset : Int), (c.data.length : Int) + offset < 0 →
       output_seek c offset 2 = (-1, c)) := by
  refine ⟨?_, ?_, ?_, ?_, ?_⟩
  · intro data cur offset whence h
    simp only [input_seek] at *
    split_ifs at h ⊢ <;> simp_all <;> omega
  · intro data cur offset whence hw h
    simp only [input_seek] at *
    split_ifs at h ⊢ <;> simp_all
  · intro c offset whence h
    push_neg at h
    obtain ⟨h0, h1, h2⟩ := h
    simp [output_seek, h0, h1, h2]
  · intro c offset h
    have : ¬(0 ≤ (c.pos : Int) + offset) := by omega
    simp [output_seek, cursor_seek, this]
  · intro c offset h
    have : ¬(0 ≤ (c.data.length : Int) + offset) := by omega
    simp [output_seek, cursor_seek, this]

/-- Witness for the amended C3 at concrete inputs: a backward input seek
below 0 leaves the cursor at 3; the resolved forward target 12 is stored
as-is; an output seek with `whence = 7` and a `FromEnd` seek below 0 both
report -1 and leave the cursor untouched. -/
theorem c3_amended_seek_contract_witness :
    (input_seek [1, 2] 3 (-9) 1).2 = 3 ∧
    ((input_seek [1, 2] 3 9 1).2 : Int) = (input_seek [1, 2] 3 9 1).1 ∧
    output_seek { pos := 4, data := [5] } 0 7 = (-1, { pos := 4, data := [5] }) ∧
    output_seek { pos := 4, data := [5] } (-2) 2 = (-1, { pos := 4, data := [5] }) :=
  ⟨c3_amended_seek_contract.1 [1, 2] 3 (-9) 1 (by decide),
   c3_amended_seek_contract.2.1 [1, 2] 3 9 1 (by decide) (by decide),
   c3_amended_seek_contract.2.2.1 _ 0 7 (by decide),
   c3_amended_seek_contract.2.2.2.2 _ (-2) (by decide)⟩

/-- Claim C9: at output-buffer extraction time, if more than one strong
reference to the shared output sink remains, extraction fails with the
"Failed to get buffer" error rather than returning a partial buffer, and
the final bytes are returned only when exactly one strong reference (the
orchestrator's) remains — in which case they are the sink's full contents. -/
theorem c9_unique_ref_extraction :
    (∀ (a : ArcCell Cursor), 1 < a.strong →
       extract_buffer a = Except.error (Err.msg "Failed to get buffer")) ∧
    (∀ (a : ArcCell Cursor) (v : List Nat),
       extract_buffer a = Except.ok v → a.strong = 1 ∧ v = a.value.data) := by
  constructor
  · intro a h
    have h1 : a.strong ≠ 1 := by omega
    simp [extract_buffer, arc_into_inner, h1]
  · intro a v h
    by_cases h1 : a.strong = 1
    · simp only [extract_buffer, arc_into_inner, h1, if_pos] at h
      cases h
      exact ⟨h1, rfl⟩
    · simp [extract_buffer, arc_into_inner, h1] at h

/-- Witness for C9: with two strong references extraction fails; with a
unique reference it yields the sink's bytes. -/
theorem c9_unique_ref_extraction_witness :
    extract_buffer { strong := 2, value := { pos := 0, data := [9] } } =
      Except.error (Err.msg "Failed to get buffer") ∧
    (1 : Nat) = 1 ∧ [9] = ({ pos := 0, data := [9] } : Cursor).data :=
  ⟨c9_unique_ref_extraction.1 _ (by decide),
   c9_unique_ref_extraction.2 { strong := 1, value := { pos := 0, data := [9] } }
     [9] (by rfl)⟩

/-! ## Claims about the decode pipeline (`AVFrameIter::next_frame`) -/

/-- A packet whose stream index differs from the selected stream is skipped
by the demux pull loop. -/
theorem pull_packet_skip (si : Nat) (p : Packet)
    (rest : List (Except RErr (Option Packet)))
    (h : p.stream_index ≠ (si : Int)) :
    pull_packet si (Except.ok (some p) :: rest) = pull_packet si rest := by
  simp [pull_packet, h]

/-- If every pending demux result is an `Ok`, the pull loop delivers an `Ok`
and leaves only `Ok` results pending. -/
theorem pull_packet_all_ok (si : Nat) (dm : List (Except RErr (Option Packet)))
    (h : ∀ r ∈ dm, ∃ o, r = Except.ok o) :
    ∃ pkt dm', pull_packet si dm = (Except.ok pkt, dm') ∧
      ∀ r ∈ dm', ∃ o, r = Except.ok o := by
  induction dm with
  | nil => exact ⟨none, [], rfl, by simp⟩
  | cons r rest ih =>
    obtain ⟨o, rfl⟩ := h r (by simp)
    have hrest : ∀ r ∈ rest, ∃ o, r = Except.ok o := fun r hr => h r (by simp [hr])
    cases o with
    | none => exact ⟨none, rest, rfl, hrest⟩
    | some p =>
      by_cases hsi : p.stream_index = (si : Int)
      · exact ⟨some p, rest, by simp [pull_packet, hsi], hrest⟩
      · obtain ⟨pkt, dm', hp, hdm⟩ := ih hrest
        exact ⟨pkt, dm', by simp [pull_packet, hsi, hp], hdm⟩

/-- Claim C1: in any call to `next_frame` whose current iteration pulls a
packet and interacts with the decoder, (i) if the decoder reports fully
flushed on `receive_frame` (after a tolerated send), the call returns
`Ok(None)` — the frame sequence is exhausted with no error; (ii) a
`send_packet` error other than the flush signal is returned as `Err`; and
(iii) a `receive_frame` error other than the drain/flush protocol signals is
returned as `Err`, aborting the conversion. -/
theorem c1_flushed_gives_none_other_errors_fatal {δ : Type}
    (ops : DecoderOps δ) (fuel : Nat) (it : AVFrameIter δ)
    (pkt : Option Packet) (dm : List (Except RErr (Option Packet)))
    (sres : Except RErr Unit) (d1 : δ) (rres : Except RErr Frame) (d2 : δ)
    (hp : pull_packet it.stream_index it.demux = (Except.ok pkt, dm))
    (hs : ops.send_packet it.dec pkt = (sres, d1))
    (hr : ops.receive_frame d1 = (rres, d2)) :
    ((sres = Except.ok () ∨ sres = Except.error RErr.decoderFlushed) →
      rres = Except.error RErr.decoderFlushed →
      next_frame ops (fuel + 1) it =
        some (Except.ok none, { it with demux := dm, dec := d2 })) ∧
    (∀ e, sres = Except.error e → e ≠ RErr.decoderFlushed →
      next_frame ops (fuel + 1) it =
        some (Except.error e, { it with demux := dm, dec := d1 })) ∧
    (∀ e, (sres = Except.ok () ∨ sres = Except.error RErr.decoderFlushed) →
      rres = Except.error e → e ≠ RErr.decoderDrain → e ≠ RErr.decoderFlushed →
      next_frame ops (fuel + 1) it =
        some (Except.error e, { it with demux := dm, dec := d2 })) := by
  refine ⟨?_, ?_, ?_⟩
  · intro hsend hrec
    subst hrec
    simp only [next_frame, hp]
    rcases hsend with h | h <;> subst h <;> simp [hs, hr]
  · intro e he hne
    subst he
    simp only [next_frame, hp]
    cases e <;> simp_all [hs]
  · intro e hsend hrec hd hf
    subst hrec
    simp only [next_frame, hp]
    rcases hsend with h | h <;> subst h <;> cases e <;> simp_all [hs, hr]

/-- Witness for C1 on the scripted decoder: (i) an empty receive script
(decoder fully flushed) yields `Ok(None)`; (ii) a scripted `send_packet`
failure with a non-protocol error is returned as `Err`; (iii) a scripted
`receive_frame` failure with a non-protocol error is returned as `Err`. -/
theorem c1_flushed_gives_none_other_errors_fatal_witness :
    next_frame scriptDecOps (0 + 1) (scriptIter ([], [])) =
      some (Except.ok none, scriptIter ([], [])) ∧
    next_frame scriptDecOps (0 + 1)
        (scriptIter ([Except.error (RErr.other 5)], [])) =
      some (Except.error (RErr.other 5), scriptIter ([], [])) ∧
    next_frame scriptDecOps (0 + 1)
        (scriptIter ([], [Except.error (RErr.other 7)])) =
      some (Except.error (RErr.other 7), scriptIter ([], [])) :=
  ⟨(c1_flushed_gives_none_other_errors_fatal scriptDecOps 0
      (scriptIter ([], [])) none [] (Except.ok ()) ([], [])
      (Except.error RErr.decoderFlushed) ([], []) rfl rfl rfl).1
      (Or.inl rfl) rfl,
   (c1_flushed_gives_none_other_errors_fatal scriptDecOps 0
      (scriptIter ([Except.error (RErr.other 5)], [])) none []
      (Except.error (RErr.other 5)) ([], [])
      (Except.error RErr.decoderFlushed) ([], []) rfl rfl rfl).2.1
      (RErr.other 5) rfl (by decide),
   (c1_flushed_gives_none_other_errors_fatal scriptDecOps 0
      (scriptIter ([], [Except.error (RErr.other 7)])) none []
      (Except.ok ()) ([], [Except.error (RErr.other 7)])
      (Except.error (RErr.other 7)) ([], []) rfl rfl rfl).2.2
      (RErr.other 7) (Or.inl rfl) rfl (by decide) (by decide)⟩

/-- Claim C7: a pulled packet whose stream index differs from the selected
stream is discarded without changing the state of the decode machine (the
whole `next_frame` computation is unchanged, for every fuel), and whenever
the pull loop delivers an actual packet to be sent to the decoder, that
packet belongs to the selected stream (otherwise only the end-of-stream
flush signal `none` is sent). -/
theorem c7_foreign_packets_discarded :
    (∀ (δ : Type) (ops : DecoderOps δ) (fuel : Nat) (it : AVFrameIter δ)
       (p : Packet) (rest : List (Except RErr (Option Packet))),
       p.stream_index ≠ (it.stream_index : Int) →
       next_frame ops fuel { it with demux := Except.ok (some p) :: rest } =
         next_frame ops fuel { it with demux := rest }) ∧
    (∀ (si : Nat) (dm dm' : List (Except RErr (Option Packet))) (p : Packet),
       pull_packet si dm = (Except.ok (some p), dm') →
       p.stream_index = (si : Int)) := by
  constructor
  · intro δ ops fuel it p rest h
    cases fuel with
    | zero => rfl
    | succ n =>
      simp only [next_frame]
      rw [pull_packet_skip _ _ _ h]
  · intro si dm
    induction dm with
    | nil => intro dm' p h; simp [pull_packet] at h
    | cons r rest ih =>
      intro dm' p h
      match r with
      | Except.error e => simp [pull_packet] at h
      | Except.ok none => simp [pull_packet] at h
      | Except.ok (some q) =>
        by_cases hsi : q.stream_index = (si : Int)
        · simp [pull_packet, hsi] at h
          rw [← h.1]
          exact hsi
        · simp only [pull_packet, hsi, if_neg] at h
          exact ih dm' p h

/-- Witness for C7: a packet of stream 1 ahead of the queue is invisible to
a machine selecting stream 0, and a concrete pull delivering a packet
returns one of the selected stream. -/
theorem c7_foreign_packets_discarded_witness :
    next_frame scriptDecOps 1
        { scriptIter ([], []) with
          demux := [Except.ok (some { stream_index := 1, pts := 0, dts := 0 })] } =
      next_frame scriptDecOps 1 { scriptIter ([], []) with demux := [] } ∧
    ({ stream_index := 0, pts := 3, dts := 3 } : Packet).stream_index =
      ((0 : Nat) : Int) :=
  ⟨c7_foreign_packets_discarded.1 ScriptDec scriptDecOps 1 (scriptIter ([], []))
      { stream_index := 1, pts := 0, dts := 0 } [] (by decide),
   c7_foreign_packets_discarded.2 0
      [Except.ok (some { stream_index := 0, pts := 3, dts := 3 })] []
      { stream_index := 0, pts := 3, dts := 3 } (by decide)⟩

/-- Claim C10: exhaustion is a stable, idempotent terminal state.  From any
iterator state whose decoder lies in a flushed-invariant set (the state the
decoder is in once it has reported fully flushed, which is when `next_frame`
returned `Ok(None)`) and whose pending demux results are all `Ok`, every
further `next_frame` call returns `Ok(None)` — never an error: the flush
signal (or stray packet) re-sent to the flushed decoder draws a tolerated
`DecoderFlushedError` from `send_packet`, and `receive_frame`'s
`DecoderFlushedError` again yields `None` — and the resulting state
satisfies the same conditions. -/
theorem c10_exhaustion_is_terminal {δ : Type} (ops : DecoderOps δ)
    (S : δ → Prop) (it : AVFrameIter δ) (hinv : DecoderFlushedInv ops S)
    (hS : S it.dec) (hdm : ∀ r ∈ it.demux, ∃ o, r = Except.ok o) (fuel : Nat) :
    ∃ it', next_frame ops (fuel + 1) it = some (Except.ok none, it') ∧
      S it'.dec ∧ ∀ r ∈ it'.demux, ∃ o, r = Except.ok o := by
  obtain ⟨pkt, dm', hp, hdm'⟩ := pull_packet_all_ok it.stream_index it.demux hdm
  obtain ⟨hsendAll, -, -⟩ := hinv it.dec hS
  obtain ⟨hs1, hSd1⟩ := hsendAll pkt
  rcases hsp : ops.send_packet it.dec pkt with ⟨sres, d1⟩
  rw [hsp] at hs1 hSd1
  simp only at hs1 hSd1
  subst hs1
  obtain ⟨-, hr1, hSd2⟩ := hinv d1 hSd1
  rcases hrc : ops.receive_frame d1 with ⟨rres, d2⟩
  rw [hrc] at hr1 hSd2
  simp only at hr1 hSd2
  subst hr1
  refine ⟨{ it with demux := dm', dec := d2 }, ?_, hSd2, hdm'⟩
  simp only [next_frame, hp]
  simp [hsp, hrc]

/-- Witness for C10: the concrete flushed decoder with a stray matching
packet still pending keeps returning `Ok(None)`. -/
theorem c10_exhaustion_is_terminal_witness :
    ∃ it', next_frame flushedDecOps (4 + 1) flushedIter =
        some (Except.ok none, it') ∧
      (fun _ => True) it'.dec ∧ ∀ r ∈ it'.demux, ∃ o, r = Except.ok o :=
  c10_exhaustion_is_terminal flushedDecOps (fun _ => True) flushedIter
    (fun d _ => ⟨fun pkt => ⟨rfl, trivial⟩, rfl, trivial⟩) trivial
    (by intro r hr; simp [flushedIter] at hr; exact ⟨_, hr⟩) 4

/-! ## Claims about the encode/write path -/

/-- Claim C2: in the interleaved-write loop, when a received packet's write
fails with exactly the muxer "invalid argument" error
`InterleavedWriteFrameError(-22)` (duplicate / out-of-range timestamps), the
packet is silently discarded and the loop continues exactly as if the write
had succeeded; every other write error is propagated as a failure.  (A
successful write continues identically, stated for contrast.) -/
theorem c2_only_einval_swallowed {ε μ : Type} (env : EncodeEnv ε μ)
    (enc_tb : TimeBase) (osi : Nat) (fuel : Nat) (w : MuxWorld ε μ)
    (packet : Packet) (e1 : ε) (out_tb : TimeBase) (wr : Except RErr Unit)
    (m1 : μ)
    (hr : env.enc.receive_packet w.enc = (Except.ok packet, e1))
    (hg : w.streams.get? osi = some out_tb)
    (hw : env.mux.interleaved_write_frame w.mux
        (env.rescale_ts { packet with stream_index := (osi : Int) } enc_tb
          out_tb) = (wr, m1)) :
    (wr = Except.error (RErr.interleavedWrite (-22)) →
      encode_write_frame_loop env enc_tb osi (fuel + 1) w =
        encode_write_frame_loop env enc_tb osi fuel
          { w with enc := e1, mux := m1 }) ∧
    (wr = Except.ok () →
      encode_write_frame_loop env enc_tb osi (fuel + 1) w =
        encode_write_frame_loop env enc_tb osi fuel
          { w with enc := e1, mux := m1 }) ∧
    (∀ e, wr = Except.error e → e ≠ RErr.interleavedWrite (-22) →
      encode_write_frame_loop env enc_tb osi (fuel + 1) w =
        some (Except.error (Err.rsmpeg e), { w with enc := e1, mux := m1 })) := by
  refine ⟨?_, ?_, ?_⟩
  · intro hwr
    subst hwr
    simp only [encode_write_frame_loop, hr, hg]
    simp [hw]
  · intro hwr
    subst hwr
    simp only [encode_write_frame_loop, hr, hg]
    simp [hw]
  · intro e hwr hne
    subst hwr
    simp only [encode_write_frame_loop, hr, hg]
    cases e <;> simp_all [hw]

/-- Witness for C2 on the scripted backend: a -22 interleaved-write failure
continues the loop exactly like a successful write, and an
`InterleavedWriteFrameError(-5)` aborts with that error. -/
theorem c2_only_einval_swallowed_witness :
    encode_write_frame_loop scriptEnv { num := 1, den := 100 } 0 2
        { enc := ([], [Except.ok { stream_index := 0, pts := 1, dts := 1 }])
          mux := [Except.error (RErr.interleavedWrite (-22))]
          streams := [{ num := 1, den := 1000 }], events := [] } =
      encode_write_frame_loop scriptEnv { num := 1, den := 100 } 0 1
        { enc := ([], []), mux := []
          streams := [{ num := 1, den := 1000 }], events := [] } ∧
    encode_write_frame_loop scriptEnv { num := 1, den := 100 } 0 2
        { enc := ([], [Except.ok { stream_index := 0, pts := 1, dts := 1 }])
          mux := [Except.error (RErr.interleavedWrite (-5))]
          streams := [{ num := 1, den := 1000 }], events := [] } =
      some (Except.error (Err.rsmpeg (RErr.interleavedWrite (-5))),
        { enc := ([], []), mux := []
          streams := [{ num := 1, den := 1000 }], events := [] }) :=
  ⟨(c2_only_einval_swallowed scriptEnv { num := 1, den := 100 } 0 1
      { enc := ([], [Except.ok { stream_index := 0, pts := 1, dts := 1 }])
        mux := [Except.error (RErr.interleavedWrite (-22))]
        streams := [{ num := 1, den := 1000 }], events := [] }
      { stream_index := 0, pts := 1, dts := 1 } ([], [])
      { num := 1, den := 1000 } (Except.error (RErr.interleavedWrite (-22))) []
      rfl rfl rfl).1 rfl,
   (c2_only_einval_swallowed scriptEnv { num := 1, den := 100 } 0 1
      { enc := ([], [Except.ok { stream_index := 0, pts := 1, dts := 1 }])
        mux := [Except.error (RErr.interleavedWrite (-5))]
        streams := [{ num := 1, den := 1000 }], events := [] }
      { stream_index := 0, pts := 1, dts := 1 } ([], [])
      { num := 1, den := 1000 } (Except.error (RErr.interleavedWrite (-5))) []
      rfl rfl rfl).2.2 (RErr.interleavedWrite (-5)) rfl (by decide)⟩

/-- Claim C5: the frame converter passes a decoded frame through to the
encoder unchanged (no copy, the scratch frame untouched) when its pixel
format already equals the encoder's target format; otherwise the scaling
capability populates the reused scratch frame and the source frame's PTS is
copied onto the converted frame, so conversion never alters presentation
time. -/
theorem c5_passthrough_or_scale_preserves_pts {ε μ : Type}
    (env : EncodeEnv ε μ) (enc_tb : TimeBase) (osi fuel : Nat)
    (src_frame dst : Frame) (w : MuxWorld ε μ) :
    (src_frame.format = dst.format →
      encode_frame env enc_tb osi fuel src_frame dst w =
        (encode_write_frame env enc_tb osi (some src_frame) fuel w).map
          (fun rw => (rw.1, dst, rw.2))) ∧
    (∀ d0, src_frame.format ≠ dst.format →
      env.sws_scale_frame src_frame dst = Except.ok d0 →
      encode_frame env enc_tb osi fuel src_frame dst w =
        (encode_write_frame env enc_tb osi
            (some { d0 with pts := src_frame.pts }) fuel w).map
          (fun rw => (rw.1, { d0 with pts := src_frame.pts }, rw.2)) ∧
      ({ d0 with pts := src_frame.pts } : Frame).pts = src_frame.pts) := by
  constructor
  · intro h
    simp only [encode_frame, h, if_pos]
    cases hE : encode_write_frame env enc_tb osi (some src_frame) fuel w with
    | none => simp
    | some rw => cases rw; simp
  · intro d0 h hs
    refine ⟨?_, rfl⟩
    simp only [encode_frame, h, if_neg, hs]
    cases hE : encode_write_frame env enc_tb osi
        (some { d0 with pts := src_frame.pts }) fuel w with
    | none => simp
    | some rw => cases rw; simp

/-- Witness for C5 on the scripted backend: a format-0 frame is passed
through to a format-0 scratch frame unchanged; a format-1 frame is scaled
(identity scaler) and keeps its PTS of 42. -/
theorem c5_passthrough_or_scale_preserves_pts_witness :
    encode_frame scriptEnv { num := 1, den := 100 } 0 1
        { width := 2, height := 2, format := 0, pts := 42 }
        { width := 2, height := 2, format := 0, pts := 0 }
        { enc := ([], []), mux := [], streams := [{ num := 1, den := 1000 }]
          events := [] } =
      (encode_write_frame scriptEnv { num := 1, den := 100 } 0
          (some { width := 2, height := 2, format := 0, pts := 42 }) 1
          { enc := ([], []), mux := [], streams := [{ num := 1, den := 1000 }]
            events := [] }).map
        (fun rw => (rw.1, { width := 2, height := 2, format := 0, pts := 0 }, rw.2)) ∧
    (encode_frame scriptEnv { num := 1, den := 100 } 0 1
        { width := 2, height := 2, format := 1, pts := 42 }
        { width := 2, height := 2, format := 0, pts := 0 }
        { enc := ([], []), mux := [], streams := [{ num := 1, den := 1000 }]
          events := [] } =
      (encode_write_frame scriptEnv { num := 1, den := 100 } 0
          (some { width := 2, height := 2, format := 0, pts := 42 }) 1
          { enc := ([], []), mux := [], streams := [{ num := 1, den := 1000 }]
            events := [] }).map
        (fun rw => (rw.1, { width := 2, height := 2, format := 0, pts := 42 }, rw.2)) ∧
      ({ width := 2, height := 2, format := 0, pts := 42 } : Frame).pts = 42) :=
  ⟨(c5_passthrough_or_scale_preserves_pts scriptEnv { num := 1, den := 100 } 0 1
      { width := 2, height := 2, format := 0, pts := 42 }
      { width := 2, height := 2, format := 0, pts := 0 }
      { enc := ([], []), mux := [], streams := [{ num := 1, den := 1000 }]
        events := [] }).1 rfl,
   (c5_passthrough_or_scale_preserves_pts scriptEnv { num := 1, den := 100 } 0 1
      { width := 2, height := 2, format := 1, pts := 42 }
      { width := 2, height := 2, format := 0, pts := 0 }
      { enc := ([], []), mux := [], streams := [{ num := 1, den := 1000 }]
        events := [] }).2
      { width := 2, height := 2, format := 0, pts := 0 } (by decide) rfl⟩

/-! ## Event-trace lemmas for the encode pipeline -/

/-- The packet-drain loop logs no events. -/
theorem encode_write_frame_loop_events {ε μ : Type} (env : EncodeEnv ε μ)
    (enc_tb : TimeBase) (osi : Nat) :
    ∀ (fuel : Nat) (w w' : MuxWorld ε μ) (r : Except Err Unit),
    encode_write_frame_loop env enc_tb osi fuel w = some (r, w') →
    w'.events = w.events := by
  intro fuel
  induction fuel with
  | zero => intro w w' r h; simp [encode_write_frame_loop] at h
  | succ n ih =>
    intro w w' r h
    simp only [encode_write_frame_loop] at h
    split at h
    · simp at h; rw [← h.2]
    · simp at h; rw [← h.2]
    · simp at h; rw [← h.2]
    · split at h
      · simp at h; rw [← h.2]
      · split at h
        · simpa using ih _ _ _ h
        · split at h
          · simpa using ih _ _ _ h
          · simp at h; rw [← h.2]
        · simp at h; rw [← h.2]

/-- `encode_write_frame` logs exactly one event: the frame (or flush
signal) sent to the encoder. -/
theorem encode_write_frame_events {ε μ : Type} (env : EncodeEnv ε μ)
    (enc_tb : TimeBase) (osi : Nat) (fa : Option Frame) (fuel : Nat)
    (w w' : MuxWorld ε μ) (r : Except Err Unit)
    (h : encode_write_frame env enc_tb osi fa fuel w = some (r, w')) :
    w'.events = w.events ++ [Event.send_frame fa] := by
  simp only [encode_write_frame] at h
  split at h
  · simp at h; rw [← h.2]
  · simpa using encode_write_frame_loop_events env enc_tb osi fuel _ _ _ h

/-- `encode_frame` logs only frame sends (none when the scaler fails, one
otherwise). -/
theorem encode_frame_events {ε μ : Type} (env : EncodeEnv ε μ)
    (enc_tb : TimeBase) (osi fuel : Nat) (f dst : Frame) (w : MuxWorld ε μ)
    (r : Except Err Unit) (dst' : Frame) (w' : MuxWorld ε μ)
    (h : encode_frame env enc_tb osi fuel f dst w = some (r, dst', w')) :
    ∃ fs : List Frame,
      w'.events = w.events ++ fs.map (fun x => Event.send_frame (some x)) := by
  by_cases hfmt : f.format = dst.format
  · rcases hE : encode_write_frame env enc_tb osi (some f) fuel w with - | ⟨r1, w1⟩
    · simp [encode_frame, hfmt, hE] at h
    · simp [encode_frame, hfmt, hE] at h
      refine ⟨[f], ?_⟩
      rw [← h.2.2]
      simpa using encode_write_frame_events env enc_tb osi _ fuel _ _ _ hE
  · rcases hS : env.sws_scale_frame f dst with e | d0
    · simp [encode_frame, hfmt, hS] at h
      exact ⟨[], by rw [← h.2.2]; simp⟩
    · rcases hE : encode_write_frame env enc_tb osi
          (some { d0 with pts := f.pts }) fuel w with - | ⟨r1, w1⟩
      · simp [encode_frame, hfmt, hS, hE] at h
      · simp [encode_frame, hfmt, hS, hE] at h
        refine ⟨[{ d0 with pts := f.pts }], ?_⟩
        rw [← h.2.2]
        simpa using encode_write_frame_events env enc_tb osi _ fuel _ _ _ hE

/-- The per-frame loop logs only sends of actual frames. -/
theorem frame_loop_events {δ ε μ : Type} (dops : DecoderOps δ)
    (env : EncodeEnv ε μ) (enc_tb : TimeBase) (osi : Nat) :
    ∀ (fuel : Nat) (it : AVFrameIter δ) (dst : Frame) (w : MuxWorld ε μ)
      (r : Except Err Unit) (it' : AVFrameIter δ) (dst' : Frame)
      (w' : MuxWorld ε μ),
    frame_loop dops env enc_tb osi fuel it dst w = some (r, it', dst', w') →
    ∃ fs : List Frame,
      w'.events = w.events ++ fs.map (fun x => Event.send_frame (some x)) := by
  intro fuel
  induction fuel with
  | zero => intro it dst w r it' dst' w' h; simp [frame_loop] at h
  | succ n ih =>
    intro it dst w r it' dst' w' h
    rcases hnf : next_frame dops (n + 1) it with - | ⟨rn, it1⟩
    · simp [frame_loop, hnf] at h
    · cases rn with
      | error e =>
        simp [frame_loop, hnf] at h
        exact ⟨[], by rw [← h.2.2.2]; simp⟩
      | ok of =>
        cases of with
        | none =>
          simp [frame_loop, hnf] at h
          exact ⟨[], by rw [← h.2.2.2]; simp⟩
        | some f =>
          rcases hef : encode_frame env enc_tb osi (n + 1) f dst w with
            - | ⟨re, dst1, w1⟩
          · simp [frame_loop, hnf, hef] at h
          · cases re with
            | error e =>
              simp [frame_loop, hnf, hef] at h
              obtain ⟨fs1, h1⟩ :=
                encode_frame_events env enc_tb osi _ _ _ _ _ _ _ hef
              exact ⟨fs1, by rw [← h.2.2.2, h1]⟩
            | ok u =>
              simp only [frame_loop, hnf, hef] at h
              obtain ⟨fs2, h2⟩ := ih _ _ _ _ _ _ _ h
              obtain ⟨fs1, h1⟩ :=
                encode_frame_events env enc_tb osi _ _ _ _ _ _ _ hef
              exact ⟨fs1 ++ fs2, by rw [h2, h1]; simp⟩

/-- Sends of converted frames are not encoder-open events. -/
theorem filter_isOpenEnc_map_send (fs : List Frame) :
    (fs.map (fun x => Event.send_frame (some x))).filter isOpenEnc = [] := by
  induction fs with
  | nil => rfl
  | cons a t ih => simp [isOpenEnc, ih]

/-- After the header is written, the pipeline logs no further encoder-open
events: the body leaves the log's open events untouched, whatever the
outcome. -/
theorem encode_mp4_body_open_filter {δ ε μ : Type} (dops : DecoderOps δ)
    (env : EncodeEnv ε μ) (ienv : InitEnv ε μ) (fuel : Nat) (cfg : EncCfg)
    (src1 : AVFrameIter δ) (ff dst : Frame) (w1 : MuxWorld ε μ)
    (res : Except Err (List Nat)) (evs : List Event)
    (h : encode_mp4_body dops env ienv fuel cfg src1 ff dst w1 =
      some (res, evs)) :
    evs.filter isOpenEnc = w1.events.filter isOpenEnc := by
  by_cases hsws : ienv.sws_ok = false
  · simp [encode_mp4_body, hsws] at h
    rw [← h.2]
  · rcases hef : encode_frame env cfg.time_base 0 fuel ff dst w1 with
      - | ⟨re, dst1, w2⟩
    · simp [encode_mp4_body, hsws, hef] at h
    · obtain ⟨fs1, h1⟩ := encode_frame_events _ _ _ _ _ _ _ _ _ _ hef
      cases re with
      | error e =>
        simp [encode_mp4_body, hsws, hef] at h
        rw [← h.2, h1]
        simp [List.filter_append, filter_isOpenEnc_map_send]
      | ok u =>
        rcases hfl : frame_loop dops env cfg.time_base 0 fuel src1 dst1 w2 with
          - | ⟨rl, it3, dst3, w3⟩
        · simp [encode_mp4_body, hsws, hef, hfl] at h
        · obtain ⟨fs2, h2⟩ := frame_loop_events _ _ _ _ _ _ _ _ _ _ _ _ hfl
          cases rl with
          | error e =>
            simp [encode_mp4_body, hsws, hef, hfl] at h
            rw [← h.2, h2, h1]
            simp [List.filter_append, filter_isOpenEnc_map_send]
          | ok u2 =>
            rcases hwf : encode_write_frame env cfg.time_base 0 none fuel w3 with
              - | ⟨rw4, w4⟩
            · simp [encode_mp4_body, hsws, hef, hfl, hwf] at h
            · have h4 := encode_write_frame_events _ _ _ _ _ _ _ _ hwf
              have hw4 : w4.events.filter isOpenEnc =
                  w1.events.filter isOpenEnc := by
                rw [h4, h2, h1]
                simp [List.filter_append, filter_isOpenEnc_map_send, isOpenEnc]
              cases rw4 with
              | error e =>
                simp [encode_mp4_body, hsws, hef, hfl, hwf] at h
                rw [← h.2, hw4]
              | ok u3 =>
                rcases htr : env.mux.write_trailer w4.mux with ⟨rt, m5⟩
                cases rt with
                | error e =>
                  simp [encode_mp4_body, hsws, hef, hfl, hwf, htr] at h
                  rw [← h.2]
                  simp [List.filter_append, isOpenEnc, hw4]
                | ok u4 =>
                  rcases hex : extract_buffer
                      { strong := 3 - ienv.adapter_released
                        value := ienv.out_cursor } with e | bytes
                  · simp [encode_mp4_body, hsws, hef, hfl, hwf, htr, hex] at h
                    rw [← h.2]
                    simp [List.filter_append, isOpenEnc, hw4]
                  · simp [encode_mp4_body, hsws, hef, hfl, hwf, htr, hex] at h
                    rw [← h.2]
                    simp [List.filter_append, isOpenEnc, hw4]

/-- In a successful body run the log gains exactly the frame sends, the
flush send and the trailer write, in that order. -/
theorem encode_mp4_body_ok_events {δ ε μ : Type} (dops : DecoderOps δ)
    (env : EncodeEnv ε μ) (ienv : InitEnv ε μ) (fuel : Nat) (cfg : EncCfg)
    (src1 : AVFrameIter δ) (ff dst : Frame) (w1 : MuxWorld ε μ)
    (v : List Nat) (evs : List Event)
    (h : encode_mp4_body dops env ienv fuel cfg src1 ff dst w1 =
      some (Except.ok v, evs)) :
    ∃ fs : List Frame,
      evs = w1.events ++ (fs.map (fun x => Event.send_frame (some x)) ++
        [Event.send_frame none, Event.write_trailer]) := by
  by_cases hsws : ienv.sws_ok = false
  · simp [encode_mp4_body, hsws] at h
  · rcases hef : encode_frame env cfg.time_base 0 fuel ff dst w1 with
      - | ⟨re, dst1, w2⟩
    · simp [encode_mp4_body, hsws, hef] at h
    · cases re with
      | error e => simp [encode_mp4_body, hsws, hef] at h
      | ok u =>
        rcases hfl : frame_loop dops env cfg.time_base 0 fuel src1 dst1 w2 with
          - | ⟨rl, it3, dst3, w3⟩
        · simp [encode_mp4_body, hsws, hef, hfl] at h
        · cases rl with
          | error e => simp [encode_mp4_body, hsws, hef, hfl] at h
          | ok u2 =>
            rcases hwf : encode_write_frame env cfg.time_base 0 none fuel w3 with
              - | ⟨rw4, w4⟩
            · simp [encode_mp4_body, hsws, hef, hfl, hwf] at h
            · cases rw4 with
              | error e => simp [encode_mp4_body, hsws, hef, hfl, hwf] at h
              | ok u3 =>
                rcases htr : env.mux.write_trailer w4.mux with ⟨rt, m5⟩
                cases rt with
                | error e =>
                  simp [encode_mp4_body, hsws, hef, hfl, hwf, htr] at h
                | ok u4 =>
                  rcases hex : extract_buffer
                      { strong := 3 - ienv.adapter_released
                        value := ienv.out_cursor } with e | bytes
                  · simp [encode_mp4_body, hsws, hef, hfl, hwf, htr, hex] at h
                  · simp [encode_mp4_body, hsws, hef, hfl, hwf, htr, hex] at h
                    obtain ⟨fs1, h1⟩ :=
                      encode_frame_events _ _ _ _ _ _ _ _ _ _ hef
                    obtain ⟨fs2, h2⟩ :=
                      frame_loop_events _ _ _ _ _ _ _ _ _ _ _ _ hfl
                    have h4 := encode_write_frame_events _ _ _ _ _ _ _ _ hwf
                    refine ⟨fs1 ++ fs2, ?_⟩
                    rw [← h.2, h4, h2, h1]
                    simp

/-- Sends of converted frames satisfy no event predicate that rejects
them. -/
theorem filter_map_send_eq_nil (p : Event → Bool)
    (hp : ∀ x, p (Event.send_frame (some x)) = false) (fs : List Frame) :
    (fs.map (fun x => Event.send_frame (some x))).filter p = [] := by
  induction fs with
  | nil => rfl
  | cons a t ih => simp [hp, ih]

/-- Every successful conversion's event log has the exact shape
open-encoder, attach-stream, write-header, the frame sends, the flush send,
write-trailer; and the first frame / found encoder / built configuration it
records come from the run's own first `next_frame` pull,
`find_encoder_by_name` result, and configuration build. -/
theorem encode_mp4_ok_shape {δ ε μ : Type} (dops : DecoderOps δ)
    (env : EncodeEnv ε μ) (ienv : InitEnv ε μ) (fuel : Nat)
    (src : AVFrameIter δ) (v : List Nat) (evs : List Event)
    (h : encode_mp4 dops env ienv fuel src = some (Except.ok v, evs)) :
    ∃ (cfg : EncCfg) (fs : List Frame) (f : Frame) (src1 : AVFrameIter δ)
      (codec : AVCodec),
      evs = Event.open_encoder cfg :: Event.new_stream cfg ::
        Event.write_header ::
        (fs.map (fun x => Event.send_frame (some x)) ++
          [Event.send_frame none, Event.write_trailer]) ∧
      next_frame dops fuel src = some (Except.ok (some f), src1) ∧
      ienv.find_libx264 = some codec ∧
      build_encode_context codec f.width f.height src.time_base src.framerate
        ienv.opt_set_preset_ok ienv.oformat_flags = Except.ok cfg := by
  rcases hnf : next_frame dops fuel src with - | ⟨rn, src1⟩
  · simp [encode_mp4, hnf] at h
  · cases rn with
    | error e => simp [encode_mp4, hnf] at h
    | ok of =>
      cases of with
      | none => simp [encode_mp4, hnf] at h
      | some ff =>
        rcases hfind : ienv.find_libx264 with - | codec
        · simp [encode_mp4, hnf, hfind] at h
        · rcases hbuild : build_encode_context codec ff.width ff.height
              src.time_base src.framerate ienv.opt_set_preset_ok
              ienv.oformat_flags with e | cfg
          · simp [encode_mp4, hnf, hfind, hbuild] at h
          · rcases hopen : ienv.enc_open cfg with e | enc0
            · simp [encode_mp4, hnf, hfind, hbuild, hopen] at h
            · rcases halloc : ienv.alloc_buffer with e | u
              · simp [encode_mp4, hnf, hfind, hbuild, hopen, halloc] at h
              · rcases hhd : env.mux.write_header ienv.mux0 with ⟨hr, m1⟩
                cases hr with
                | error e =>
                  simp [encode_mp4, hnf, hfind, hbuild, hopen, halloc, hhd] at h
                | ok u2 =>
                  simp only [encode_mp4, hnf, hfind, hbuild, hopen, halloc,
                    hhd] at h
                  obtain ⟨fs, hevs⟩ :=
                    encode_mp4_body_ok_events _ _ _ _ _ _ _ _ _ _ _ h
                  exact ⟨cfg, fs, ff, src1, codec, by rw [hevs]; rfl,
                    rfl, rfl, hbuild⟩

/-- Whatever a conversion run's outcome, its event log contains either no
encoder-open event (the run failed before the encoder was opened) or
exactly the one carrying the configuration built from the first frame. -/
theorem encode_mp4_open_filter {δ ε μ : Type} (dops : DecoderOps δ)
    (env : EncodeEnv ε μ) (ienv : InitEnv ε μ) (fuel : Nat)
    (src : AVFrameIter δ) (f : Frame) (src1 : AVFrameIter δ) (codec : AVCodec)
    (cfg : EncCfg) (res : Except Err (List Nat)) (evs : List Event)
    (hnf : next_frame dops fuel src = some (Except.ok (some f), src1))
    (hfound : ienv.find_libx264 = some codec)
    (hbuild : build_encode_context codec f.width f.height src.time_base
      src.framerate ienv.opt_set_preset_ok ienv.oformat_flags = Except.ok cfg)
    (hrun : encode_mp4 dops env ienv fuel src = some (res, evs)) :
    evs.filter isOpenEnc = [] ∨
      evs.filter isOpenEnc = [Event.open_encoder cfg] := by
  simp only [encode_mp4, hnf, hfound, hbuild] at hrun
  rcases hopen : ienv.enc_open cfg with e | enc0
  · simp [hopen] at hrun
    left
    rw [hrun.2]
    rfl
  · rcases halloc : ienv.alloc_buffer with e | u
    · simp [hopen, halloc] at hrun
      right
      rw [← hrun.2]
      simp [isOpenEnc]
    · rcases hhd : env.mux.write_header ienv.mux0 with ⟨hr, m1⟩
      cases hr with
      | error e =>
        simp [hopen, halloc, hhd] at hrun
        right
        rw [← hrun.2]
        simp [isOpenEnc]
      | ok u2 =>
        simp only [hopen, halloc, hhd] at hrun
        right
        have := encode_mp4_body_open_filter _ _ _ _ _ _ _ _ _ _ _ hrun
        rw [this]
        simp [isOpenEnc]

/-- Claim C6: in every successful conversion the event log is exactly
open-encoder, attach the output stream descriptor (with the encoder's
parameters), write the container header, the per-frame encoder sends, the
explicit flush send (no frame), and the container trailer write — so the
header is written exactly once, after the stream descriptor is attached and
before any frame is sent to the encoder, and the trailer is written exactly
once, after the flush that follows the last source frame. -/
theorem c6_header_and_trailer_once_ordered {δ ε μ : Type}
    (dops : DecoderOps δ) (env : EncodeEnv ε μ) (ienv : InitEnv ε μ)
    (fuel : Nat) (src : AVFrameIter δ) (v : List Nat) (evs : List Event)
    (h : encode_mp4 dops env ienv fuel src = some (Except.ok v, evs)) :
    (∃ (cfg : EncCfg) (fs : List Frame),
      evs = Event.open_encoder cfg :: Event.new_stream cfg ::
        Event.write_header ::
        (fs.map (fun x => Event.send_frame (some x)) ++
          [Event.send_frame none, Event.write_trailer])) ∧
    countEvent Event.write_header evs = 1 ∧
    countEvent Event.write_trailer evs = 1 := by
  obtain ⟨cfg, fs, f, src1, codec, hevs, -, -, -⟩ :=
    encode_mp4_ok_shape _ _ _ _ _ _ _ h
  have hmh : (fs.map (fun x => Event.send_frame (some x))).filter
      (fun e => decide (e = Event.write_header)) = [] :=
    filter_map_send_eq_nil _ (fun x => by simp) fs
  have hmt : (fs.map (fun x => Event.send_frame (some x))).filter
      (fun e => decide (e = Event.write_trailer)) = [] :=
    filter_map_send_eq_nil _ (fun x => by simp) fs
  refine ⟨⟨cfg, fs, hevs⟩, ?_, ?_⟩
  · rw [hevs]
    simp [countEvent, List.filter_append, hmh]
  · rw [hevs]
    simp [countEvent, List.filter_append, hmt]

/-- Witness for C6: the one-frame sample conversion succeeds and its log is
the six expected events with exactly one header and one trailer write. -/
theorem c6_header_and_trailer_once_ordered_witness :
    (∃ (cfg : EncCfg) (fs : List Frame),
      sampleEvents = Event.open_encoder cfg :: Event.new_stream cfg ::
        Event.write_header ::
        (fs.map (fun x => Event.send_frame (some x)) ++
          [Event.send_frame none, Event.write_trailer])) ∧
    countEvent Event.write_header sampleEvents = 1 ∧
    countEvent Event.write_trailer sampleEvents = 1 :=
  c6_header_and_trailer_once_ordered scriptDecOps scriptEnv baseInitEnv 8
    sampleIter [] sampleEvents (by rfl)

/-- Claim C4: encoder initialization happens exactly once per conversion
and uses only the first decoded frame and the source stream's parameters.
Given that the first `next_frame` pull yields frame `f` and that `cfg` is
the configuration built from `f` and the source's time base / frame rate:
(i) when the H.264 encoder is found, every encoder-open event of any run
carries exactly `cfg` (so no later frame influences it), a run opens the
encoder at most once, and a successful run exactly once; (ii) when the
encoder is unavailable, initialization fails with "Failed to find encoder
codec" and nothing is opened; (iii) `cfg` takes width/height from the first
frame, time base and frame rate from the source stream's decode context,
the fixed bitrate 1000000, GOP size 10, max-B-frames 1, the planar YUV
4:2:0 pixel format, the "slow" preset when the encoder is H.264, and the
global-header flag exactly when the container requires it (set before
open). -/
theorem c4_encoder_init_once_from_first_frame {δ ε μ : Type}
    (dops : DecoderOps δ) (env : EncodeEnv ε μ) (ienv : InitEnv ε μ)
    (fuel : Nat) (src : AVFrameIter δ) (f : Frame) (src1 : AVFrameIter δ)
    (codec : AVCodec) (cfg : EncCfg)
    (hnf : next_frame dops fuel src = some (Except.ok (some f), src1))
    (hbuild : build_encode_context codec f.width f.height src.time_base
      src.framerate ienv.opt_set_preset_ok ienv.oformat_flags =
        Except.ok cfg) :
    (ienv.find_libx264 = some codec →
      ∀ res evs, encode_mp4 dops env ienv fuel src = some (res, evs) →
        (∀ cfg', Event.open_encoder cfg' ∈ evs → cfg' = cfg) ∧
        (evs.filter isOpenEnc).length ≤ 1 ∧
        (∀ v, res = Except.ok v →
          evs.filter isOpenEnc = [Event.open_encoder cfg])) ∧
    (ienv.find_libx264 = none →
      encode_mp4 dops env ienv fuel src =
        some (Except.error (Err.msg "Failed to find encoder codec"), [])) ∧
    (cfg.width = f.width ∧ cfg.height = f.height ∧
      cfg.time_base = src.time_base ∧ cfg.framerate = src.framerate ∧
      cfg.bit_rate = 1000000 ∧ cfg.gop_size = 10 ∧ cfg.max_b_frames = 1 ∧
      cfg.pix_fmt = AV_PIX_FMT_YUV420P ∧
      (codec.id = AV_CODEC_ID_H264 → cfg.preset = some "slow") ∧
      (ienv.oformat_flags &&& AVFMT_GLOBALHEADER ≠ 0 →
        cfg.flags &&& AV_CODEC_FLAG_GLOBAL_HEADER ≠ 0)) := by
  refine ⟨?_, ?_, ?_⟩
  · intro hfound res evs hrun
    have hdisj := encode_mp4_open_filter dops env ienv fuel src f src1 codec
      cfg res evs hnf hfound hbuild hrun
    refine ⟨?_, ?_, ?_⟩
    · intro cfg' hmem
      have hmf : Event.open_encoder cfg' ∈ evs.filter isOpenEnc :=
        List.mem_filter.2 ⟨hmem, by simp [isOpenEnc]⟩
      rcases hdisj with hd | hd
      · rw [hd] at hmf
        simp at hmf
      · rw [hd] at hmf
        simpa using hmf
    · rcases hdisj with hd | hd <;> rw [hd] <;> simp
    · intro v hv
      subst hv
      obtain ⟨cfg2, fs, f2, src12, codec2, hevs, hnf2, hfound2, hbuild2⟩ :=
        encode_mp4_ok_shape _ _ _ _ _ _ _ hrun
      rw [hnf] at hnf2
      simp at hnf2
      obtain ⟨hf, -⟩ := hnf2
      rw [hfound] at hfound2
      simp at hfound2
      rw [← hf, ← hfound2, hbuild] at hbuild2
      simp at hbuild2
      subst hbuild2
      rw [hevs]
      have hm : (fs.map (fun x => Event.send_frame (some x))).filter
          isOpenEnc = [] := filter_map_send_eq_nil _ (fun x => rfl) fs
      simp [List.filter_append, isOpenEnc, hm]
  · intro hnone
    simp [encode_mp4, hnf, hnone]
  · have hb := hbuild
    simp only [build_encode_context] at hb
    by_cases hid : codec.id = AV_CODEC_ID_H264
    · rw [if_pos hid] at hb
      by_cases hopt : ienv.opt_set_preset_ok
      · rw [if_pos hopt] at hb
        simp only [Except.ok.injEq] at hb
        by_cases hfl : ienv.oformat_flags &&& AVFMT_GLOBALHEADER ≠ 0
        · rw [if_pos hfl] at hb
          rw [← hb]
          refine ⟨rfl, rfl, rfl, rfl, rfl, rfl, rfl, rfl, fun _ => rfl, ?_⟩
          intro _
          show ((0 : Nat) ||| AV_CODEC_FLAG_GLOBAL_HEADER) &&&
            AV_CODEC_FLAG_GLOBAL_HEADER ≠ 0
          decide
        · rw [if_neg hfl] at hb
          rw [← hb]
          exact ⟨rfl, rfl, rfl, rfl, rfl, rfl, rfl, rfl, fun _ => rfl,
            fun hc => absurd hc hfl⟩
      · rw [if_neg hopt] at hb
        simp at hb
    · rw [if_neg hid] at hb
      simp only [Except.ok.injEq] at hb
      by_cases hfl : ienv.oformat_flags &&& AVFMT_GLOBALHEADER ≠ 0
      · rw [if_pos hfl] at hb
        rw [← hb]
        refine ⟨rfl, rfl, rfl, rfl, rfl, rfl, rfl, rfl,
          fun hc => absurd hc hid, ?_⟩
        intro _
        show ((0 : Nat) ||| AV_CODEC_FLAG_GLOBAL_HEADER) &&&
          AV_CODEC_FLAG_GLOBAL_HEADER ≠ 0
        decide
      · rw [if_neg hfl] at hb
        rw [← hb]
        exact ⟨rfl, rfl, rfl, rfl, rfl, rfl, rfl, rfl,
          fun hc => absurd hc hid, fun hc => absurd hc hfl⟩

/-- Witness for C4: with the encoder missing the sample conversion fails
with the expected error and an empty log; with it present the successful
sample run's log holds exactly one open event carrying `sampleCfg`, whose
width is the first frame's and whose preset is "slow". -/
theorem c4_encoder_init_once_from_first_frame_witness :
    encode_mp4 scriptDecOps scriptEnv
        { baseInitEnv with find_libx264 := none } 8 sampleIter =
      some (Except.error (Err.msg "Failed to find encoder codec"), []) ∧
    sampleEvents.filter isOpenEnc = [Event.open_encoder sampleCfg] ∧
    sampleCfg.width = sampleFrame.width ∧
    sampleCfg.preset = some "slow" :=
  ⟨(c4_encoder_init_once_from_first_frame scriptDecOps scriptEnv
      { baseInitEnv with find_libx264 := none } 8 sampleIter sampleFrame
      sampleIter1 { id := 27 } sampleCfg (by rfl) (by rfl)).2.1 rfl,
   ((c4_encoder_init_once_from_first_frame scriptDecOps scriptEnv
      baseInitEnv 8 sampleIter sampleFrame sampleIter1 { id := 27 } sampleCfg
      (by rfl) (by rfl)).1 rfl (Except.ok []) sampleEvents (by rfl)).2.2
      [] rfl,
   (c4_encoder_init_once_from_first_frame scriptDecOps scriptEnv
      baseInitEnv 8 sampleIter sampleFrame sampleIter1 { id := 27 } sampleCfg
      (by rfl) (by rfl)).2.2.1,
   (c4_encoder_init_once_from_first_frame scriptDecOps scriptEnv
      baseInitEnv 8 sampleIter sampleFrame sampleIter1 { id := 27 } sampleCfg
      (by rfl) (by rfl)).2.2.2.2.2.2.2.2.2.2.1 rfl⟩

end Convert
